import Mathlib

/-!
Verification development for the dfox repository (terminal database client).

The definitions below are a shallow embedding, translated from the Rust
sources under dfox-core and dfox-tui.  Pure string manipulation from the
sources is modelled by structural functions over the character list of a
string (so that every definition is executable and kernel-reducible);
driver calls (sqlx) are modelled as oracles: a fetched result set or a
client is a record of the responses the external driver would give, and
the embedded functions reproduce exactly what the Rust code does with
those responses.
-/

namespace Dfox

/-! ## String primitives

Structural models of the Rust string operations used by the sources
(`str::trim`, `str::to_uppercase`, `str::starts_with`, `str::split('\t')`,
`Vec::join("\t")`).  They are defined over `String.data` so that concrete
evaluation works by `decide`/`rfl`.  Rust trims and classifies by Unicode
whitespace; the embedding covers its ASCII fragment, which is the alphabet
of all SQL text appearing in the claims. -/

def isWsChar (c : Char) : Bool :=
  c == ' ' || c == '\t' || c == '\n' || c == '\r'

def trimChars (cs : List Char) : List Char :=
  ((cs.dropWhile isWsChar).reverse.dropWhile isWsChar).reverse

/-- Model of Rust `str::trim`. -/
def strTrim (s : String) : String :=
  ⟨trimChars s.data⟩

/-- Model of Rust `char::to_uppercase` restricted to ASCII letters. -/
def charUpper (c : Char) : Char :=
  if c.toNat ≥ 97 && c.toNat ≤ 122 then Char.ofNat (c.toNat - 32) else c

/-- Model of Rust `str::to_uppercase`. -/
def strToUpper (s : String) : String :=
  ⟨s.data.map charUpper⟩

/-- Model of Rust `str::starts_with`. -/
def strStartsWith (s p : String) : Bool :=
  p.data.isPrefixOf s.data

/-- Splitting a character list at every occurrence of a separator
character; `n` separators yield `n + 1` pieces, as Rust `str::split`. -/
def splitOnChar (sep : Char) : List Char → List (List Char)
  | [] => [[]]
  | c :: rest =>
      let r := splitOnChar sep rest
      if c == sep then [] :: r
      else
        match r with
        | [] => [[c]]
        | g :: gs => (c :: g) :: gs

/-- Model of Rust `str::split('\t')`. -/
def splitTab (s : String) : List String :=
  (splitOnChar '\t' s.data).map (fun l => ⟨l⟩)

/-- Model of Rust `Vec<String>::join("\t")`. -/
def joinTab : List String → String
  | [] => ""
  | [s] => s
  | s :: rest => s ++ "\t" ++ joinTab rest

/-- Association-list lookup with a default, mirroring a sequential Rust
match over string literals: the first matching entry wins. -/
def lookupD {α : Type} : List (String × α) → String → α → α
  | [], _, d => d
  | (k, v) :: rest, s, d => if s = k then v else lookupD rest s d

theorem lookupD_eq_default_of_not_mem {α : Type} (t : List (String × α)) (s : String) (d : α)
    (h : s ∉ t.map Prod.fst) : lookupD t s d = d := by
  induction t with
  | nil => rfl
  | cons p rest ih =>
      simp only [List.map_cons, List.mem_cons] at h
      push_neg at h
      simp only [lookupD, if_neg h.1]
      exact ih h.2

end Dfox

namespace Dfox

/-! ## Canonical JSON values

Model of `serde_json::Value`.  Objects are ordered association lists
(`IndexMap` for the Postgres `query` path; the serde map in general), and
numbers distinguish the integer constructors (`i32`/`i64` via
`Number::from`) from the float constructor (`Number::from_f64`), whose
payload is abstracted by its decimal rendering since no claim inspects a
float's value. -/

inductive JNum where
  | int (i : Int)
  | float (repr : String)
  deriving DecidableEq

inductive JValue where
  | null
  | bool (b : Bool)
  | num (n : JNum)
  | str (s : String)
  | arr (xs : List JValue)
  | obj (fields : List (String × JValue))

/-- Minimal JSON string escaping (quotes and backslashes), as in the
serde rendering of `Value::String`. -/
def jsonEscape (s : String) : String :=
  ⟨s.data.foldr (fun c acc =>
    if c == '"' then '\\' :: '"' :: acc
    else if c == '\\' then '\\' :: '\\' :: acc
    else c :: acc) []⟩

def JNum.render : JNum → String
  | .int i => toString i
  | .float r => r

def joinComma : List String → String
  | [] => ""
  | [s] => s
  | s :: rest => s ++ "," ++ joinComma rest

/-- Model of `serde_json::Value::to_string` (compact JSON rendering). -/
def JValue.render : JValue → String
  | .null => "null"
  | .bool true => "true"
  | .bool false => "false"
  | .num n => n.render
  | .str s => "\"" ++ jsonEscape s ++ "\""
  | .arr xs => "[" ++ joinComma (xs.attach.map (fun x => JValue.render x.1)) ++ "]"
  | .obj fs =>
      "\x7b" ++
        joinComma (fs.attach.map
          (fun p => "\"" ++ jsonEscape p.1.1 ++ "\":" ++ JValue.render p.1.2))
        ++ "\x7d"
decreasing_by
  · simp only [JValue.arr.sizeOf_spec]
    have := List.sizeOf_lt_of_mem x.2
    omega
  · simp only [JValue.obj.sizeOf_spec]
    rcases p with ⟨⟨k, v⟩, hp⟩
    have := List.sizeOf_lt_of_mem hp
    simp only [Prod.mk.sizeOf_spec] at this ⊢
    omega

/-- Ordered-map insertion: an existing key keeps its position and gets the
new value, a new key is appended.  This is `IndexMap::insert` and the
insertion behaviour of the serde object map built by the sources. -/
def serdeInsert (m : List (String × JValue)) (k : String) (v : JValue) :
    List (String × JValue) :=
  if m.any (fun p => p.1 == k) then
    m.map (fun p => if p.1 == k then (k, v) else p)
  else m ++ [(k, v)]

def serdeGet (m : List (String × JValue)) (k : String) : Option JValue :=
  (m.find? (fun p => p.1 == k)).map Prod.snd

/-- Collecting an iterator of pairs into an object map, as
`.collect::<serde_json::Map<_, _>>()` does in the sources. -/
def serdeCollect (l : List (String × JValue)) : List (String × JValue) :=
  l.foldl (fun m p => serdeInsert m p.1 p.2) []

end Dfox

namespace Dfox

/-! ## Error taxonomy and transaction contract

The enum `DbError` lives in dfox-core/src/errors.rs, which is not among
the provided sources; its variants are reconstructed from every use in
the provided files (`DbError::Connection(..)`, `DbError::Sqlx(..)`,
`DbError::Transaction(..)`) and from the taxonomy of spec section 7.
The driver error payload of `Sqlx` is abstracted by its message. -/

inductive DbError where
  | Connection (msg : String)
  | Sqlx (msg : String)
  | Transaction (msg : String)
  deriving DecidableEq

/-- Modelled from the spec: `ColumnSchema` of dfox-core/src/models/schema.rs
(absent from the provided sources) — "{name: Text, data_type: Text
(backend-native type name), is_nullable: Bool, default: optional Text}". -/
structure ColumnSchema where
  name : String
  data_type : String
  is_nullable : Bool
  default : Option String
  deriving DecidableEq

/-- Modelled from the spec: `TableSchema` of dfox-core/src/models/schema.rs
(absent from the provided sources) — "{table_name: Text, columns: ordered
sequence of ColumnSchema, indexes: reserved, always empty}". -/
structure TableSchema where
  table_name : String
  columns : List ColumnSchema
  indexes : List String
  deriving DecidableEq

end Dfox

namespace Dfox.Postgres

/-! ## Postgres native type categories (dfox-core/src/db/postgres/types.rs) -/

inductive ColumnType where
  | SmallInt | Integer | BigInt | Decimal | Real | DoublePrecision | Serial | BigSerial
  | Char | Varchar | Text
  | Bytea
  | Date | Time | Timestamp | TimestampTz | Interval
  | Boolean
  | Uuid
  | Json | Jsonb
  | Array
  | Inet | Cidr | MacAddr
  | Point | Line | Circle | Box
  | Money
  | Unknown
  deriving DecidableEq

/-- The native-type-name table of `ColumnType::from_type_name`, with the
entries in the order of the Rust match arms (a `"A" | "B" => C` arm
contributes two consecutive entries). -/
def pgTypeTable : List (String × ColumnType) :=
  [("INT2", .SmallInt), ("INT4", .Integer), ("INT8", .BigInt),
   ("NUMERIC", .Decimal), ("DECIMAL", .Decimal),
   ("REAL", .Real), ("FLOAT4", .Real),
   ("DOUBLE PRECISION", .DoublePrecision), ("FLOAT8", .DoublePrecision),
   ("SERIAL", .Serial), ("SERIAL4", .Serial),
   ("BIGSERIAL", .BigSerial), ("SERIAL8", .BigSerial),
   ("CHAR", .Char), ("CHARACTER", .Char),
   ("VARCHAR", .Varchar), ("CHARACTER VARYING", .Varchar),
   ("TEXT", .Text),
   ("BYTEA", .Bytea),
   ("DATE", .Date),
   ("TIME", .Time), ("TIME WITHOUT TIME ZONE", .Time),
   ("TIMESTAMP", .Timestamp), ("TIMESTAMP WITHOUT TIME ZONE", .Timestamp),
   ("TIMESTAMPTZ", .TimestampTz), ("TIMESTAMP WITH TIME ZONE", .TimestampTz),
   ("INTERVAL", .Interval),
   ("BOOLEAN", .Boolean), ("BOOL", .Boolean),
   ("UUID", .Uuid),
   ("JSON", .Json), ("JSONB", .Jsonb),
   ("ARRAY", .Array),
   ("INET", .Inet), ("CIDR", .Cidr), ("MACADDR", .MacAddr),
   ("POINT", .Point), ("LINE", .Line), ("CIRCLE", .Circle), ("BOX", .Box),
   ("MONEY", .Money)]

/-- `ColumnType::from_type_name` (postgres/types.rs lines 67-123): the
incoming name is matched directly — the Rust code does not call
`to_uppercase` on it — against the literal (all upper-case) arms. -/
def ColumnType.from_type_name (type_name : String) : ColumnType :=
  lookupD pgTypeTable type_name ColumnType.Unknown

end Dfox.Postgres

namespace Dfox.MySql

/-! ## MySQL native type categories (dfox-core/src/db/mysql/types.rs) -/

inductive ColumnType where
  | TinyInt | SmallInt | MediumInt | Int | BigInt | Decimal | Float | Double
  | Char | Varchar | TinyText | Text | MediumText | LongText
  | Date | Time | Year | DateTime | Timestamp
  | Binary | Varbinary | TinyBlob | Blob | MediumBlob | LongBlob
  | Json
  | Boolean
  | Enum | Set
  | Unknown
  deriving DecidableEq

/-- The native-type-name table of the MySQL `ColumnType::from_type_name`,
entries in Rust match-arm order. -/
def mysqlTypeTable : List (String × ColumnType) :=
  [("TINYINT", .TinyInt), ("SMALLINT", .SmallInt), ("MEDIUMINT", .MediumInt),
   ("INT", .Int), ("INTEGER", .Int),
   ("BIGINT", .BigInt),
   ("DECIMAL", .Decimal), ("DEC", .Decimal), ("NUMERIC", .Decimal),
   ("FLOAT", .Float),
   ("DOUBLE", .Double), ("DOUBLE PRECISION", .Double), ("REAL", .Double),
   ("CHAR", .Char), ("VARCHAR", .Varchar),
   ("TINYTEXT", .TinyText), ("TEXT", .Text),
   ("MEDIUMTEXT", .MediumText), ("LONGTEXT", .LongText),
   ("DATE", .Date), ("TIME", .Time), ("YEAR", .Year),
   ("DATETIME", .DateTime), ("TIMESTAMP", .Timestamp),
   ("BINARY", .Binary), ("VARBINARY", .Varbinary),
   ("TINYBLOB", .TinyBlob), ("BLOB", .Blob),
   ("MEDIUMBLOB", .MediumBlob), ("LONGBLOB", .LongBlob),
   ("JSON", .Json),
   ("BOOLEAN", .Boolean), ("BOOL", .Boolean),
   ("ENUM", .Enum), ("SET", .Set)]

/-- The MySQL `ColumnType::from_type_name` (mysql/types.rs lines 57-104):
here the Rust code matches on `type_name.to_uppercase().as_str()`. -/
def ColumnType.from_type_name (type_name : String) : ColumnType :=
  lookupD mysqlTypeTable (strToUpper type_name) ColumnType.Unknown

end Dfox.MySql

namespace Dfox

/-- Standard base64 alphabet as a character list. -/
def base64Alphabet : List Char :=
  "ABCDEFGHIJKLMNOPQRSTUVWXYZabcdefghijklmnopqrstuvwxyz0123456789+/".data

def base64Char (n : Nat) : Char :=
  (base64Alphabet.get? (n % 64)).getD 'A'

/-- Model of `base64::engine::general_purpose::STANDARD.encode` over a
byte sequence. -/
def base64Encode : List Nat → String
  | [] => ""
  | [a] =>
      ⟨[base64Char (a / 4), base64Char (a % 4 * 16), '=', '=']⟩
  | [a, b] =>
      ⟨[base64Char (a / 4), base64Char (a % 4 * 16 + b / 16), base64Char (b % 16 * 4), '=']⟩
  | a :: b :: c :: rest =>
      (⟨[base64Char (a / 4), base64Char (a % 4 * 16 + b / 16),
         base64Char (b % 16 * 4 + c / 64), base64Char (c % 64)]⟩ : String)
        ++ base64Encode rest

/-- Abstraction of an IEEE double obtained from the driver: `serde` is the
result of `serde_json::Number::from_f64` on it — the rendered finite value,
or `none` when the double is NaN or infinite. -/
structure F64Val where
  serde : Option String
  deriving DecidableEq

/-- The `Ok`/`Err` pattern of every arm of `to_json_value`:
`match row.try_get::<T>(i) { Ok(v) => f(v), Err(_) => Value::Null }`. -/
def decodeOr {α : Type} (o : Option α) (f : α → JValue) : JValue :=
  match o with
  | some v => f v
  | none => JValue.null

theorem decodeOr_none {α : Type} (o : Option α) (f : α → JValue)
    (h : o.isSome = false) : decodeOr o f = JValue.null := by
  cases o with
  | none => rfl
  | some v => simp at h

end Dfox

namespace Dfox.Postgres

open Dfox

/-- One cell of a `PgRow`, seen through sqlx `try_get` at each of the Rust
target types used by `to_json_value`.  A field is `none` exactly when the
corresponding `try_get` returns `Err` (type mismatch, unexpected null,
index out of bounds, malformed value). -/
structure PgRawCell where
  asUuid : Option String
  asTimestamp : Option String
  asI32 : Option Int
  asI64 : Option Int
  asF64 : Option F64Val
  asBool : Option Bool
  asDate : Option String
  asTime : Option String
  asString : Option String
  asJson : Option JValue
  asBytes : Option (List Nat)

/-- The all-failing cell: every `try_get` errors (e.g. the index is out of
bounds, or the stored value decodes at no target type). -/
def PgRawCell.failing : PgRawCell :=
  ⟨none, none, none, none, none, none, none, none, none, none, none⟩

/-- `ColumnType::to_json_value` (postgres/types.rs lines 125-200): decode
the cell at the category's Rust target type; a failed decode yields
`Value::Null` in every arm.  Chrono/uuid values are abstracted by the
string their `to_string` would produce; the `Real`/`DoublePrecision` arm
is `Number::from_f64(v).unwrap_or(Number::from(0))`. -/
def ColumnType.to_json_value (t : ColumnType) (c : PgRawCell) : JValue :=
  match t with
  | .Uuid => decodeOr c.asUuid (fun u => .str u)
  | .Timestamp | .TimestampTz => decodeOr c.asTimestamp (fun ts => .str ts)
  | .SmallInt | .Integer | .Serial => decodeOr c.asI32 (fun i => .num (.int i))
  | .BigInt | .BigSerial => decodeOr c.asI64 (fun i => .num (.int i))
  | .Decimal => decodeOr c.asString (fun v => .str v)
  | .Real | .DoublePrecision =>
      decodeOr c.asF64 (fun f =>
        .num (match f.serde with
              | some r => JNum.float r
              | none => JNum.int 0))
  | .Boolean => decodeOr c.asBool (fun b => .bool b)
  | .Date => decodeOr c.asDate (fun d => .str d)
  | .Time => decodeOr c.asTime (fun tm => .str tm)
  | .Interval => decodeOr c.asString (fun v => .str v)
  | .Json | .Jsonb => decodeOr c.asJson (fun v => v)
  | .Bytea => decodeOr c.asBytes (fun bs => .str (base64Encode bs))
  | .Money => decodeOr c.asString (fun v => .str v)
  | .Inet | .Cidr | .MacAddr => decodeOr c.asString (fun v => .str v)
  | .Point | .Line | .Circle | .Box => decodeOr c.asString (fun v => .str v)
  | .Char | .Varchar | .Text => decodeOr c.asString (fun v => .str v)
  | .Array => decodeOr c.asString (fun v => .str v)
  | .Unknown => decodeOr c.asString (fun v => .str v)

/-- Whether the `try_get` a category dispatches to succeeds on a cell
(the `Ok` side of the arm `to_json_value` selects for that category). -/
def decodeOk (t : ColumnType) (c : PgRawCell) : Bool :=
  match t with
  | .Uuid => c.asUuid.isSome
  | .Timestamp | .TimestampTz => c.asTimestamp.isSome
  | .SmallInt | .Integer | .Serial => c.asI32.isSome
  | .BigInt | .BigSerial => c.asI64.isSome
  | .Decimal => c.asString.isSome
  | .Real | .DoublePrecision => c.asF64.isSome
  | .Boolean => c.asBool.isSome
  | .Date => c.asDate.isSome
  | .Time => c.asTime.isSome
  | .Interval => c.asString.isSome
  | .Json | .Jsonb => c.asJson.isSome
  | .Bytea => c.asBytes.isSome
  | .Money => c.asString.isSome
  | .Inet | .Cidr | .MacAddr => c.asString.isSome
  | .Point | .Line | .Circle | .Box => c.asString.isSome
  | .Char | .Varchar | .Text => c.asString.isSome
  | .Array => c.asString.isSome
  | .Unknown => c.asString.isSome

end Dfox.Postgres

namespace Dfox.MySql

open Dfox

/-- One cell of a `MySqlRow`, seen through sqlx `try_get` at each Rust
target type used by the MySQL `to_json_value`; `none` exactly when that
`try_get` returns `Err`. -/
structure MyRawCell where
  asDateTime : Option String
  asDate : Option String
  asTime : Option String
  asI32 : Option Int
  asI64 : Option Int
  asF64 : Option F64Val
  asBool : Option Bool
  asJson : Option JValue
  asBytes : Option (List Nat)
  asString : Option String

/-- The all-failing cell. -/
def MyRawCell.failing : MyRawCell :=
  ⟨none, none, none, none, none, none, none, none, none, none⟩

/-- The MySQL `ColumnType::to_json_value` (mysql/types.rs lines 106-165). -/
def ColumnType.to_json_value (t : ColumnType) (c : MyRawCell) : JValue :=
  match t with
  | .DateTime | .Timestamp => decodeOr c.asDateTime (fun ts => .str ts)
  | .Date => decodeOr c.asDate (fun d => .str d)
  | .Time => decodeOr c.asTime (fun tm => .str tm)
  | .TinyInt | .SmallInt | .MediumInt | .Int => decodeOr c.asI32 (fun i => .num (.int i))
  | .BigInt => decodeOr c.asI64 (fun i => .num (.int i))
  | .Decimal => decodeOr c.asString (fun v => .str v)
  | .Float | .Double =>
      decodeOr c.asF64 (fun f =>
        .num (match f.serde with
              | some r => JNum.float r
              | none => JNum.int 0))
  | .Boolean => decodeOr c.asBool (fun b => .bool b)
  | .Json => decodeOr c.asJson (fun v => v)
  | .Binary | .Varbinary | .TinyBlob | .Blob | .MediumBlob | .LongBlob =>
      decodeOr c.asBytes (fun bs => .str (base64Encode bs))
  | .Char | .Varchar | .TinyText | .Text | .MediumText | .LongText =>
      decodeOr c.asString (fun v => .str v)
  | .Enum | .Set => decodeOr c.asString (fun v => .str v)
  | .Year => decodeOr c.asI32 (fun y => .num (.int y))
  | .Unknown => decodeOr c.asString (fun v => .str v)

/-- Whether the `try_get` a MySQL category dispatches to succeeds. -/
def decodeOk (t : ColumnType) (c : MyRawCell) : Bool :=
  match t with
  | .DateTime | .Timestamp => c.asDateTime.isSome
  | .Date => c.asDate.isSome
  | .Time => c.asTime.isSome
  | .TinyInt | .SmallInt | .MediumInt | .Int => c.asI32.isSome
  | .BigInt => c.asI64.isSome
  | .Decimal => c.asString.isSome
  | .Float | .Double => c.asF64.isSome
  | .Boolean => c.asBool.isSome
  | .Json => c.asJson.isSome
  | .Binary | .Varbinary | .TinyBlob | .Blob | .MediumBlob | .LongBlob => c.asBytes.isSome
  | .Char | .Varchar | .TinyText | .Text | .MediumText | .LongText => c.asString.isSome
  | .Enum | .Set => c.asString.isSome
  | .Year => c.asI32.isSome
  | .Unknown => c.asString.isSome

end Dfox.MySql

namespace Dfox.Postgres

open Dfox

/-- Column metadata of a fetched sqlx result (`column.name()`,
`column.type_info().name()`). -/
structure PgColumnInfo where
  name : String
  type_name : String

/-- A fetched Postgres result set: the statement's columns, shared by all
rows, and per-row cells (`row.columns()` of every row of one fetch is the
statement's column list).  A missing cell (short row) behaves like a
failing `try_get`. -/
structure PgResult where
  columns : List PgColumnInfo
  rows : List (List PgRawCell)

def getPgCell (row : List PgRawCell) (i : Nat) : PgRawCell :=
  (row.get? i).getD PgRawCell.failing

/-- `PostgresClient::query` (postgres/mod.rs lines 42-65): each row becomes
an object whose keys are the column names in result order, with values
decoded through `from_type_name`/`to_json_value`. -/
def queryRows (res : PgResult) : List JValue :=
  res.rows.map (fun row =>
    JValue.obj (serdeCollect (res.columns.enum.map (fun p =>
      (p.2.name, (ColumnType.from_type_name p.2.type_name).to_json_value (getPgCell row p.1))))))

/-- `PostgresClient::query_with_column_order` (postgres/mod.rs lines
67-105): empty fetch gives two empty vectors; otherwise the header is the
column-name list of `rows[0]` and every data row stringifies its cells in
column order, `Value::Null` printing as `"NULL"` and `Value::String`
printing unquoted. -/
def query_with_column_order (res : PgResult) : List String × List (List String) :=
  if res.rows.isEmpty then ([], [])
  else
    let column_names := res.columns.map (fun col => col.name)
    let data_rows := res.rows.map (fun row =>
      res.columns.enum.map (fun p =>
        let value := (ColumnType.from_type_name p.2.type_name).to_json_value (getPgCell row p.1)
        match value with
        | .null => "NULL"
        | .str s => s
        | other => other.render))
    (column_names, data_rows)

end Dfox.Postgres

namespace Dfox.MySql

open Dfox

structure MyColumnInfo where
  name : String
  type_name : String

/-- A fetched MySQL result set, analogous to `PgResult`. -/
structure MySqlResult where
  columns : List MyColumnInfo
  rows : List (List MyRawCell)

def getMyCell (row : List MyRawCell) (i : Nat) : MyRawCell :=
  (row.get? i).getD MyRawCell.failing

/-- `MySqlClient::query` (mysql/mod.rs lines 41-67): each row's
`(name, value)` pairs are collected into an object map. -/
def queryRows (res : MySqlResult) : List JValue :=
  res.rows.map (fun row =>
    JValue.obj (serdeCollect (res.columns.enum.map (fun p =>
      (p.2.name, (ColumnType.from_type_name p.2.type_name).to_json_value (getMyCell row p.1))))))

/-- The per-cell rendering of the MySQL/SQLite `query_with_column_order`
data rows: present values print with `Null` as `"NULL"` and strings
unquoted; a column name absent from the row's map is `unwrap_or`-ed to
`"NULL"`. -/
def renderCellFromMap (m : List (String × JValue)) (col : String) : String :=
  match serdeGet m col with
  | some v =>
      match v with
      | .null => "NULL"
      | .str s => s
      | other => other.render
  | none => "NULL"

/-- `MySqlClient::query_with_column_order` (mysql/mod.rs lines 69-108):
delegates to `query`, takes the key list of the first row as header, and
reads every row's values back through the map. -/
def query_with_column_order (res : MySqlResult) : List String × List (List String) :=
  let rows := queryRows res
  match rows with
  | [] => ([], [])
  | first :: _ =>
      let column_names := match first with
        | .obj m => m.map Prod.fst
        | _ => []
      let data_rows := rows.map (fun row =>
        match row with
        | .obj m => column_names.map (fun col => renderCellFromMap m col)
        | _ => [])
      (column_names, data_rows)

end Dfox.MySql

namespace Dfox.Sqlite

open Dfox

/-- One cell of a SQLite row through `try_get` at the three target types
the SQLite `query` tries in order. -/
structure SqliteRawCell where
  asString : Option String
  asI64 : Option Int
  asF64 : Option F64Val

structure SqliteColumnInfo where
  name : String

structure SqliteResult where
  columns : List SqliteColumnInfo
  rows : List (List SqliteRawCell)

def SqliteRawCell.failing : SqliteRawCell := ⟨none, none, none⟩

def getSqliteCell (row : List SqliteRawCell) (i : Nat) : SqliteRawCell :=
  (row.get? i).getD SqliteRawCell.failing

/-- The cascading decode of one SQLite cell (sqlite.rs lines 53-64):
String, then i64, then f64 (`from_f64(..).map(Number).unwrap_or(Null)`),
else `Null`. -/
def decodeSqliteCell (c : SqliteRawCell) : JValue :=
  match c.asString with
  | some s => .str s
  | none =>
      match c.asI64 with
      | some i => .num (.int i)
      | none =>
          match c.asF64 with
          | some f =>
              match f.serde with
              | some r => .num (.float r)
              | none => .null
          | none => .null

/-- `SqliteClient::query` (sqlite.rs lines 38-75). -/
def queryRows (res : SqliteResult) : List JValue :=
  res.rows.map (fun row =>
    JValue.obj (serdeCollect (res.columns.enum.map (fun p =>
      (p.2.name, decodeSqliteCell (getSqliteCell row p.1))))))

/-- `SqliteClient::query_with_column_order` (sqlite.rs lines 77-116), the
same shape as the MySQL one. -/
def query_with_column_order (res : SqliteResult) : List String × List (List String) :=
  let rows := queryRows res
  match rows with
  | [] => ([], [])
  | first :: _ =>
      let column_names := match first with
        | .obj m => m.map Prod.fst
        | _ => []
      let data_rows := rows.map (fun row =>
        match row with
        | .obj m => column_names.map (fun col => MySql.renderCellFromMap m col)
        | _ => [])
      (column_names, data_rows)

end Dfox.Sqlite

namespace Dfox

/-! ## TUI database wrappers (dfox-tui/src/db/postgres.rs, mysql.rs)

The registry slot content (`connections.first()`) is an `Option` of a
boxed `DbClient` trait object; the trait object is modelled as a record
of response oracles, one per trait method, and each wrapper makes at most
one call into the client. -/

/-- A `Box<dyn DbClient>` as response oracles for each trait method of
dfox-core/src/db/mod.rs. -/
structure DbClientM where
  query : String → Except DbError (List JValue)
  execute : String → Except DbError Unit
  query_with_column_order : String → Except DbError (List String × List (List String))
  list_databases : Except DbError (List String)
  list_tables : Except DbError (List String)
  describe_table : String → Except DbError TableSchema

/-- The `DbClient` method a statement is dispatched to by the tui
`execute_sql_query` when the slot is occupied (postgres.rs lines 37-44 and
81-83; mysql.rs lines 40-51): the snapshot is trimmed, uppercased, and a
`starts_with("SELECT")` test sends it to `query`, everything else to
`execute`. -/
inductive DbClientCall where
  | query (sql : String)
  | execute (sql : String)
  | query_with_column_order (sql : String)
  deriving DecidableEq

def executeSqlQueryCall (q : String) : DbClientCall :=
  let query_trimmed := strTrim q
  let query_upper := strToUpper query_trimmed
  if strStartsWith query_upper "SELECT" then .query query_trimmed
  else .execute query_trimmed

/-- The gate of the F5 / Ctrl+E branch of `handle_sql_editor_input`
(handlers.rs line 425): the query runs only when the editor buffer is
non-empty. -/
def sqlEditorExecuteTriggers (content : String) : Bool :=
  !content.data.isEmpty

/-- Whether a key event is the execute trigger of `handle_sql_editor_input`
(handlers.rs line 424): F5, or Ctrl+'e'. -/
inductive EditorKey where
  | fKey (n : Nat)
  | charKey (c : Char) (ctrl : Bool)
  | otherKey
  deriving DecidableEq

def isExecuteTrigger : EditorKey → Bool
  | .fKey 5 => true
  | .charKey 'e' true => true
  | _ => false

end Dfox

namespace Dfox.PostgresDatabaseUI

open Dfox

/-- `PostgresDatabaseUI::execute_sql_query` (dfox-tui/src/db/postgres.rs
lines 34-88).  SELECT-classified statements run `DbClient::query` and the
rows are flattened to tab-separated strings: the header line is the key
list of `rows[0]`, each data row renders `map.get(header)` with
`Value::to_string` (absent keys print `"NULL"`); all other statements run
`DbClient::execute`.  An empty slot is the `No database connection
available.` error. -/
def execute_sql_query (slot : Option DbClientM) (query : String) :
    Except DbError (List String × String) :=
  match slot with
  | some client =>
      let query_trimmed := strTrim query
      let query_upper := strToUpper query_trimmed
      if strStartsWith query_upper "SELECT" then
        match client.query query_trimmed with
        | .error e => .error e
        | .ok rows =>
            if rows.isEmpty then .ok ([], "Query returned no results.")
            else
              let headers := match rows with
                | .obj m :: _ => m.map Prod.fst
                | _ => []
              let header_row := joinTab headers
              let data_rows := rows.map (fun row =>
                match row with
                | .obj m =>
                    joinTab (headers.map (fun header =>
                      match serdeGet m header with
                      | some value => value.render
                      | none => "NULL"))
                | other => other.render)
              .ok (header_row :: data_rows, "")
      else
        match client.execute query_trimmed with
        | .error e => .error e
        | .ok _ => .ok ([], "Non-SELECT query executed successfully.")
  | none => .error (DbError.Connection "No database connection available.")

/-- `PostgresDatabaseUI::describe_table` (postgres.rs lines 90-98). -/
def describe_table (slot : Option DbClientM) (table_name : String) :
    Except DbError (List String) :=
  match slot with
  | some client =>
      match client.describe_table table_name with
      | .error e => .error e
      | .ok schema => .ok (schema.columns.map (fun c => c.name))
  | none => .error (DbError.Connection "No database connection found")

/-- `PostgresDatabaseUI::fetch_databases` (postgres.rs lines 100-108). -/
def fetch_databases (slot : Option DbClientM) : Except DbError (List String) :=
  match slot with
  | some client => client.list_databases
  | none => .error (DbError.Connection "No database connection found")

/-- `PostgresDatabaseUI::fetch_tables` (postgres.rs lines 110-118): note
the empty slot returns `Ok(Vec::new())`, not an error. -/
def fetch_tables (slot : Option DbClientM) : Except DbError (List String) :=
  match slot with
  | some client => client.list_tables
  | none => .ok []

end Dfox.PostgresDatabaseUI

namespace Dfox.MySqlDatabaseUI

open Dfox

/-- `MySqlDatabaseUI::execute_sql_query` (dfox-tui/src/db/mysql.rs lines
37-57): the SELECT branch renders each row of `DbClient::query` with
`Value::to_string`. -/
def execute_sql_query (slot : Option DbClientM) (query : String) :
    Except DbError (List String × String) :=
  match slot with
  | some client =>
      let query_trimmed := strTrim query
      let query_upper := strToUpper query_trimmed
      if strStartsWith query_upper "SELECT" then
        match client.query query_trimmed with
        | .error e => .error e
        | .ok rows => .ok (rows.map (fun row => row.render), "")
      else
        match client.execute query_trimmed with
        | .error e => .error e
        | .ok _ => .ok ([], "Non-SELECT query executed successfully.")
  | none => .error (DbError.Connection "No database connection available.")

/-- `MySqlDatabaseUI::describe_table` (mysql.rs lines 59-67). -/
def describe_table (slot : Option DbClientM) (table_name : String) :
    Except DbError (List String) :=
  match slot with
  | some client =>
      match client.describe_table table_name with
      | .error e => .error e
      | .ok schema => .ok (schema.columns.map (fun c => c.name))
  | none => .error (DbError.Connection "No database connection found")

/-- `MySqlDatabaseUI::fetch_databases` (mysql.rs lines 69-77). -/
def fetch_databases (slot : Option DbClientM) : Except DbError (List String) :=
  match slot with
  | some client => client.list_databases
  | none => .error (DbError.Connection "No database connection found")

/-- `MySqlDatabaseUI::fetch_tables` (mysql.rs lines 79-87): the empty slot
returns `Ok(Vec::new())`, not an error. -/
def fetch_tables (slot : Option DbClientM) : Except DbError (List String) :=
  match slot with
  | some client => client.list_tables
  | none => .ok []

end Dfox.MySqlDatabaseUI

namespace Dfox.Handlers

open Dfox

/-! ## Result ingestion of `handle_sql_editor_input`
(dfox-tui/src/ui/handlers.rs lines 436-558) -/

/-- Model of Rust `char::is_control` (Unicode category Cc). -/
def rustIsControl (c : Char) : Bool :=
  decide (c.toNat < 32) || (decide (127 ≤ c.toNat) && decide (c.toNat ≤ 159))

/-- The header line parsing (handlers.rs lines 448-452): split the first
result row on tabs, trim each piece, keep the non-empty ones. -/
def headersOf (first_row : String) : List String :=
  ((splitTab first_row).map strTrim).filter (fun s => !s.data.isEmpty)

/-- The two cell-cleaning strategies (handlers.rs lines 502-521): if the
value holds a code-point below 32 other than tab/newline, keep only
code-points at least 32 plus tab/newline; otherwise drop every control
character except tab/newline; both then trim. -/
def cleanValue (value : String) : String :=
  if value.data.any (fun c =>
      decide (c.toNat < 32) && !(c == '\t') && !(c == '\n')) then
    strTrim ⟨value.data.filter (fun c =>
      decide (32 ≤ c.toNat) || c == '\t' || c == '\n')⟩
  else
    strTrim ⟨value.data.filter (fun c =>
      !(rustIsControl c) || c == '\t' || c == '\n')⟩

/-- Cleaning plus the empty-to-NULL replacement (handlers.rs lines
523-528). -/
def finalValue (value : String) : String :=
  let cleaned := cleanValue value
  if cleaned.data.isEmpty then "NULL" else cleaned

/-- `IndexMap::insert` on the display row under construction: an existing
key is overwritten in place, a new key appended. -/
def indexMapInsert (m : List (String × String)) (k v : String) :
    List (String × String) :=
  if m.any (fun p => p.1 == k) then
    m.map (fun p => if p.1 == k then (k, v) else p)
  else m ++ [(k, v)]

/-- The loop `for (i, header) in headers.iter().enumerate()` (handlers.rs
lines 499-533): insert `values[i]`, cleaned, under each header in header
order; an index beyond the value list inserts nothing. -/
def insertHeaders (values : List String) :
    List (String × String) → Nat → List String → List (String × String)
  | m, _, [] => m
  | m, i, h :: hs =>
      match values.get? i with
      | some v => insertHeaders values (indexMapInsert m h (finalValue v)) (i + 1) hs
      | none => insertHeaders values m (i + 1) hs

/-- One data row of the `filter_map` (handlers.rs lines 494-539): split on
tabs; a row with fewer values than headers is dropped (`None`, with a
logged warning), a row with at least as many is kept and its first
`headers.len()` values are inserted in header order. -/
def ingestRow (headers : List String) (row : String) :
    Option (List (String × String)) :=
  let values := splitTab row
  if headers.length ≤ values.length then
    some (insertHeaders values [] 0 headers)
  else none

/-- The row cap (handlers.rs line 482): at most 1000 data rows are kept. -/
def maxRows : Nat := 1000

/-- The Ok-branch result assembly (handlers.rs lines 437-558) as a function
of the backend result lines and the reported success message: the pair of
the retained display rows and the stored success message.  An empty result
clears the rows and keeps the message (lines 555-557); otherwise the
header comes from the first line, a result longer than the cap is cut to
header plus 1000 data lines with the truncation message (lines 481-488),
and the remaining lines pass through `ingestRow`. -/
def processResultRows (result : List String) (success_message : String) :
    List (List (String × String)) × String :=
  match result with
  | [] => ([], success_message)
  | first_row :: _ =>
      let headers := headersOf first_row
      let capped := maxRows + 1 < result.length
      let limited := if capped then result.take (maxRows + 1) else result
      let success_msg :=
        if capped then "Results limited to 1000 rows for performance" else success_message
      (((limited.drop 1).filterMap (fun row => ingestRow headers row)), success_msg)

/-! ## Horizontal scrolling of the query result
(handlers.rs lines 245-335 and components.rs line 16) -/

/-- `MAX_VISIBLE_COLUMNS` (components.rs line 16). -/
def MAX_VISIBLE_COLUMNS : Nat := 8

/-- The navigation keys `handle_table_view_input` reacts to while the
query result is focused. -/
inductive NavKey where
  | left | right | up | down | pageUp | pageDown | home | endKey | other
  deriving DecidableEq

/-- The effect of one navigation key on `sql_result_horizontal_scroll`
while `current_focus == QueryResult` (handlers.rs lines 245-335):
Left decrements when positive, Right increments below
`max(0, total_columns - MAX_VISIBLE_COLUMNS)`, Home resets to zero; every
arm is guarded by the result being non-empty, and the remaining keys leave
the offset unchanged.  `total_columns` is the entry count of the first
display row. -/
def hscrollStep (nonempty : Bool) (total_columns : Nat) (h : Nat) :
    NavKey → Nat
  | .left => if nonempty && decide (0 < h) then h - 1 else h
  | .right =>
      if nonempty then
        let max_scroll :=
          if MAX_VISIBLE_COLUMNS < total_columns then total_columns - MAX_VISIBLE_COLUMNS
          else 0
        if h < max_scroll then h + 1 else h
      else h
  | .home => if nonempty then 0 else h
  | _ => h

/-- A run of navigation events starting from the offset reset to zero at
result ingestion (handlers.rs line 564). -/
def hscrollRun (nonempty : Bool) (total_columns : Nat) (keys : List NavKey) : Nat :=
  keys.foldl (fun h k => hscrollStep nonempty total_columns h k) 0

end Dfox.Handlers

namespace Dfox.Registry

open Dfox

/-- An abstract live backend client held by the registry slot. -/
structure BackendClient where
  id : Nat
  deriving DecidableEq

/-- One guarded operation on `DbManager.connections`.  The two connect
operations carry the driver's outcome (`some` client on success, `none`
on a connect error); the query-path operations only read the slot. -/
inductive RegistryOp where
  | connectDefault (outcome : Option BackendClient)
  | connectSelected (db_name : String) (outcome : Option BackendClient)
  | queryOp (sql : String)
  | executeOp (sql : String)
  | listDatabases
  | listTables
  | describeOp (table : String)

/-- The slot transition of one operation (dfox-tui/src/db/postgres.rs
lines 137-165, mysql.rs lines 106-134): both connect operations run
`connections.clear()` first and push the new client only on a successful
connect (the `?` on a failed connect returns with the slot already
cleared); every other operation leaves the slot unchanged. -/
def registryStep (slot : List BackendClient) : RegistryOp → List BackendClient
  | .connectDefault outcome =>
      match outcome with
      | some c => [c]
      | none => []
  | .connectSelected _ outcome =>
      match outcome with
      | some c => [c]
      | none => []
  | _ => slot

def registryRun (slot : List BackendClient) (ops : List RegistryOp) : List BackendClient :=
  ops.foldl registryStep slot

end Dfox.Registry

namespace Dfox.Tx

/-! ## Transaction handle consumption (dfox-core/src/db/mod.rs lines 23-28,
postgres/mod.rs lines 188-215)

`execute_transaction` borrows the handle mutably and returns it to the
caller; `commit_transaction` and `rollback_transaction` take
`self: Box<Self>` — the handle is moved into the call, so the code after
it holds no handle.  `TxProgram` is therefore exactly the type of call
sequences a well-typed caller can make on one handle: any number of
executes followed by at most one commit or rollback (or dropping the
handle without either). -/

inductive TxProgram where
  | abandon
  | commit
  | rollback
  | exec (sql : String) (rest : TxProgram)

inductive TxCall where
  | execCall (sql : String)
  | commitCall
  | rollbackCall
  deriving DecidableEq

/-- The trait-method call sequence a program performs on its handle. -/
def TxProgram.trace : TxProgram → List TxCall
  | .abandon => []
  | .commit => [.commitCall]
  | .rollback => [.rollbackCall]
  | .exec sql rest => .execCall sql :: rest.trace

/-- Whether a call consumes the handle (`self: Box<Self>` receiver). -/
def consumes : TxCall → Bool
  | .execCall _ => false
  | .commitCall => true
  | .rollbackCall => true

/-- No call of any kind follows a consuming call. -/
def noCallAfterConsume : List TxCall → Bool
  | [] => true
  | c :: rest => if consumes c then rest.isEmpty else noCallAfterConsume rest

end Dfox.Tx

namespace Dfox

/-! ## Supporting lemmas -/

theorem charUpper_eq_self_of_not_lower (c : Char)
    (h : ¬(97 ≤ c.toNat ∧ c.toNat ≤ 122)) : charUpper c = c := by
  unfold charUpper
  rw [if_neg]
  simp only [Bool.and_eq_true, decide_eq_true_eq, ge_iff_le]
  exact h

theorem charUpper_toNat_of_lower (c : Char)
    (h : 97 ≤ c.toNat ∧ c.toNat ≤ 122) : (charUpper c).toNat = c.toNat - 32 := by
  unfold charUpper
  rw [if_pos (by simp only [Bool.and_eq_true, decide_eq_true_eq, ge_iff_le]; exact h)]
  have hv : (c.toNat - 32).isValidChar := Or.inl (by omega)
  show (Char.ofNat (c.toNat - 32)).toNat = c.toNat - 32
  unfold Char.ofNat
  rw [dif_pos hv]
  rfl

theorem charUpper_idem (c : Char) : charUpper (charUpper c) = charUpper c := by
  by_cases h : 97 ≤ c.toNat ∧ c.toNat ≤ 122
  · have ht := charUpper_toNat_of_lower c h
    exact charUpper_eq_self_of_not_lower _ (by omega)
  · have he := charUpper_eq_self_of_not_lower c h
    rw [he]
    exact he

theorem strToUpper_idem (s : String) : strToUpper (strToUpper s) = strToUpper s := by
  simp only [strToUpper, List.map_map]
  congr 1
  exact List.map_congr_left (fun c _ => charUpper_idem c)

end Dfox

namespace Dfox

open Dfox

/-! ## Claims -/

/-- C4.  For every native column category of either backend and every
cell, `to_json_value` is total — the embedding is a total function whose
every arm matches the driver decode and falls back to `Value::Null` — and
a cell whose decode at the category's target type fails yields `Null`. -/
theorem c4_to_json_value_null_on_failure :
    (∀ (t : Postgres.ColumnType) (c : Postgres.PgRawCell),
       Postgres.decodeOk t c = false → t.to_json_value c = JValue.null) ∧
    (∀ (t : MySql.ColumnType) (c : MySql.MyRawCell),
       MySql.decodeOk t c = false → t.to_json_value c = JValue.null) := by
  constructor
  · intro t c h
    cases t <;> simp only [Postgres.decodeOk] at h <;>
      simp only [Postgres.ColumnType.to_json_value] <;> exact decodeOr_none _ _ h
  · intro t c h
    cases t <;> simp only [MySql.decodeOk] at h <;>
      simp only [MySql.ColumnType.to_json_value] <;> exact decodeOr_none _ _ h

/-- C4 witness: the all-failing cell decodes to `Null` in a Postgres
integer column and in a MySQL JSON column. -/
theorem c4_witness :
    Postgres.ColumnType.to_json_value .Integer Postgres.PgRawCell.failing = JValue.null ∧
    MySql.ColumnType.to_json_value .Json MySql.MyRawCell.failing = JValue.null :=
  ⟨c4_to_json_value_null_on_failure.1 .Integer Postgres.PgRawCell.failing (by decide),
   c4_to_json_value_null_on_failure.2 .Json MySql.MyRawCell.failing (by decide)⟩

/-- C5 counterexample: the Postgres `from_type_name` does not uppercase
its argument before matching — the lower-case spelling of a mapped name
falls through to `Unknown` while its upper-case spelling maps to the
category, so the claimed uppercase-then-match behaviour is false for the
Postgres backend. -/
theorem c5_counterexample :
    Postgres.ColumnType.from_type_name "int2" = Postgres.ColumnType.Unknown ∧
    Postgres.ColumnType.from_type_name "INT2" = Postgres.ColumnType.SmallInt ∧
    Postgres.ColumnType.from_type_name "int2" ≠
      Postgres.ColumnType.from_type_name (strToUpper "int2") := by
  refine ⟨rfl, rfl, ?_⟩
  decide

/-- C5 amended.  The MySQL `from_type_name` uppercases the name before
matching (so it is case-insensitive), the Postgres one matches the name
as received against its (all upper-case) table entries, and in both
backends every name that matches no table entry maps to `Unknown`. -/
theorem c5_from_type_name_amended :
    (∀ s, s ∉ Postgres.pgTypeTable.map Prod.fst →
       Postgres.ColumnType.from_type_name s = Postgres.ColumnType.Unknown) ∧
    (∀ s, strToUpper s ∉ MySql.mysqlTypeTable.map Prod.fst →
       MySql.ColumnType.from_type_name s = MySql.ColumnType.Unknown) ∧
    (∀ s, MySql.ColumnType.from_type_name s =
       MySql.ColumnType.from_type_name (strToUpper s)) := by
  refine ⟨?_, ?_, ?_⟩
  · intro s h
    exact lookupD_eq_default_of_not_mem _ _ _ h
  · intro s h
    exact lookupD_eq_default_of_not_mem _ _ _ h
  · intro s
    unfold MySql.ColumnType.from_type_name
    rw [strToUpper_idem]

/-- C5 witness: an unmapped name maps to `Unknown` in both backends, and
the MySQL matching is insensitive to the case of a mapped name. -/
theorem c5_witness :
    Postgres.ColumnType.from_type_name "GEOGRAPHY" = Postgres.ColumnType.Unknown ∧
    MySql.ColumnType.from_type_name "GEOGRAPHY" = MySql.ColumnType.Unknown ∧
    MySql.ColumnType.from_type_name "tinyint" =
      MySql.ColumnType.from_type_name (strToUpper "tinyint") :=
  ⟨c5_from_type_name_amended.1 "GEOGRAPHY" (by decide),
   c5_from_type_name_amended.2.1 "GEOGRAPHY" (by decide),
   c5_from_type_name_amended.2.2 "tinyint"⟩

/-- C8.  The trait takes `self: Box<Self>` for commit and rollback, so a
caller's possible call sequences on one transaction handle are exactly
the `TxProgram` traces, and in every such trace no call of any kind —
in particular no `execute_transaction` — follows a commit or rollback. -/
theorem c8_transaction_handle_consumed (p : Tx.TxProgram) :
    Tx.noCallAfterConsume p.trace = true := by
  induction p with
  | abandon => rfl
  | commit => rfl
  | rollback => rfl
  | exec sql rest ih =>
      simpa [Tx.TxProgram.trace, Tx.noCallAfterConsume, Tx.consumes] using ih

end Dfox

namespace Dfox

theorem hscrollStep_le (ne : Bool) (tc h : Nat) (k : Handlers.NavKey)
    (hb : h ≤ tc - Handlers.MAX_VISIBLE_COLUMNS) :
    Handlers.hscrollStep ne tc h k ≤ tc - Handlers.MAX_VISIBLE_COLUMNS := by
  cases k <;> simp only [Handlers.hscrollStep, Handlers.MAX_VISIBLE_COLUMNS] at hb ⊢ <;>
    (repeat' split) <;> omega

/-- C9.  Starting from the offset reset performed at result ingestion,
any sequence of navigation key events in the query-result focus keeps
`sql_result_horizontal_scroll` within
`[0, max(0, total_columns - MAX_VISIBLE_COLUMNS)]`: the offset is a
`usize` (here `Nat`), so the lower bound holds by type, and truncated
subtraction makes `tc - MAX_VISIBLE_COLUMNS` exactly
`max(0, total_columns - 8)`.  The first part states preservation from any
in-range offset, the second the run from the reset offset. -/
theorem c9_horizontal_scroll_clamped :
    (∀ (ne : Bool) (tc h0 : Nat) (keys : List Handlers.NavKey),
       h0 ≤ tc - Handlers.MAX_VISIBLE_COLUMNS →
       keys.foldl (fun h k => Handlers.hscrollStep ne tc h k) h0 ≤
         tc - Handlers.MAX_VISIBLE_COLUMNS) ∧
    (∀ (ne : Bool) (tc : Nat) (keys : List Handlers.NavKey),
       Handlers.hscrollRun ne tc keys ≤ tc - Handlers.MAX_VISIBLE_COLUMNS) := by
  have main : ∀ (ne : Bool) (tc : Nat) (keys : List Handlers.NavKey) (h0 : Nat),
      h0 ≤ tc - Handlers.MAX_VISIBLE_COLUMNS →
      keys.foldl (fun h k => Handlers.hscrollStep ne tc h k) h0 ≤
        tc - Handlers.MAX_VISIBLE_COLUMNS := by
    intro ne tc keys
    induction keys with
    | nil => intro h0 hb; exact hb
    | cons k rest ih =>
        intro h0 hb
        exact ih _ (hscrollStep_le ne tc h0 k hb)
  exact ⟨fun ne tc h0 keys hb => main ne tc keys h0 hb,
         fun ne tc keys => main ne tc keys 0 (Nat.zero_le _)⟩

/-- C9 witness: a concrete run (right, right, left, home, right) over a
ten-column result stays within the bound from a valid start. -/
theorem c9_witness :
    (3 ≤ 10 - Handlers.MAX_VISIBLE_COLUMNS → False) ∧
    ([Handlers.NavKey.right, .right, .left, .home, .right].foldl
        (fun h k => Handlers.hscrollStep true 10 h k) 1 ≤
      10 - Handlers.MAX_VISIBLE_COLUMNS) :=
  ⟨by decide,
   c9_horizontal_scroll_clamped.1 true 10 1
     [Handlers.NavKey.right, .right, .left, .home, .right] (by decide)⟩

/-- C6.  From any state holding at most one client, every sequence of
registry operations preserves the bound —  the slot never holds two live
clients — and both connect operations clear the slot first: their
resulting slot is independent of the previous contents, `[c]` on a
successful connect and empty on a failed one (the `?` operator returns
after `connections.clear()` has already run). -/
theorem c6_registry_single_slot :
    (∀ (slot : List Registry.BackendClient) (ops : List Registry.RegistryOp),
       slot.length ≤ 1 → (Registry.registryRun slot ops).length ≤ 1) ∧
    (∀ (slot : List Registry.BackendClient) (c : Registry.BackendClient),
       Registry.registryStep slot (.connectDefault (some c)) = [c]) ∧
    (∀ (slot : List Registry.BackendClient) (n : String) (c : Registry.BackendClient),
       Registry.registryStep slot (.connectSelected n (some c)) = [c]) ∧
    (∀ (slot : List Registry.BackendClient),
       Registry.registryStep slot (.connectDefault none) = []) ∧
    (∀ (slot : List Registry.BackendClient) (n : String),
       Registry.registryStep slot (.connectSelected n none) = []) := by
  refine ⟨?_, fun _ _ => rfl, fun _ _ _ => rfl, fun _ => rfl, fun _ _ => rfl⟩
  intro slot ops
  induction ops generalizing slot with
  | nil => intro h; exact h
  | cons op rest ih =>
      intro h
      refine ih _ ?_
      cases op with
      | connectDefault outcome => cases outcome <;> simp [Registry.registryStep]
      | connectSelected n outcome => cases outcome <;> simp [Registry.registryStep]
      | queryOp sql => exact h
      | executeOp sql => exact h
      | listDatabases => exact h
      | listTables => exact h
      | describeOp t => exact h

/-- C6 witness: a concrete session — connect, reconnect to another
database, run a query — never exceeds one client in the slot. -/
theorem c6_witness :
    ([] : List Registry.BackendClient).length ≤ 1 ∧
    (Registry.registryRun []
      [Registry.RegistryOp.connectDefault (some ⟨0⟩),
       Registry.RegistryOp.connectSelected "db" (some ⟨1⟩),
       Registry.RegistryOp.queryOp "SELECT 1"]).length ≤ 1 :=
  ⟨by decide,
   c6_registry_single_slot.1 []
     [Registry.RegistryOp.connectDefault (some ⟨0⟩),
      Registry.RegistryOp.connectSelected "db" (some ⟨1⟩),
      Registry.RegistryOp.queryOp "SELECT 1"] (by decide)⟩

/-- Whether a result is a connection-style error ("NoConnection"
condition). -/
def isConnectionError {α : Type} : Except DbError α → Bool
  | .error (DbError.Connection _) => true
  | _ => false

/-- C7 counterexample: `fetch_tables` on an empty slot returns
`Ok(Vec::new())` — not a `NoConnection`-style error — in both backend
wrappers, so the claim fails for this operation. -/
theorem c7_counterexample :
    PostgresDatabaseUI.fetch_tables none = Except.ok [] ∧
    isConnectionError (PostgresDatabaseUI.fetch_tables none) = false ∧
    MySqlDatabaseUI.fetch_tables none = Except.ok [] ∧
    isConnectionError (MySqlDatabaseUI.fetch_tables none) = false :=
  ⟨rfl, rfl, rfl, rfl⟩

/-- C7 amended.  With an empty registry slot, `execute_sql_query`,
`describe_table` and `fetch_databases` fail with the connection-error
condition in both backend wrappers, while `fetch_tables` is the
exception: it returns an empty table list instead of an error. -/
theorem c7_empty_slot_amended :
    (∀ q, PostgresDatabaseUI.execute_sql_query none q =
       .error (DbError.Connection "No database connection available.")) ∧
    (∀ t, PostgresDatabaseUI.describe_table none t =
       .error (DbError.Connection "No database connection found")) ∧
    (PostgresDatabaseUI.fetch_databases none =
       .error (DbError.Connection "No database connection found")) ∧
    (PostgresDatabaseUI.fetch_tables none = .ok []) ∧
    (∀ q, MySqlDatabaseUI.execute_sql_query none q =
       .error (DbError.Connection "No database connection available.")) ∧
    (∀ t, MySqlDatabaseUI.describe_table none t =
       .error (DbError.Connection "No database connection found")) ∧
    (MySqlDatabaseUI.fetch_databases none =
       .error (DbError.Connection "No database connection found")) ∧
    (MySqlDatabaseUI.fetch_tables none = .ok []) :=
  ⟨fun _ => rfl, fun _ => rfl, rfl, rfl, fun _ => rfl, fun _ => rfl, rfl, rfl⟩

end Dfox

namespace Dfox

/-- A probing client whose `query` oracle reports distinctly from its
`query_with_column_order` oracle, to expose which method the SELECT path
calls. -/
def probeClient : DbClientM :=
  ⟨fun _ => .error (DbError.Sqlx "query was called"),
   fun _ => .error (DbError.Sqlx "execute was called"),
   fun _ => .ok (["h"], [["v"]]),
   .ok [], .ok [], fun _ => .error (DbError.Sqlx "describe")⟩

/-- C1 counterexample: a SELECT statement is dispatched to
`DbClient::query`, not to `query_with_column_order` as claimed — with a
client whose `query` oracle fails distinctively and whose
`query_with_column_order` oracle succeeds, the tui `execute_sql_query`
reports the `query` failure in both backends. -/
theorem c1_select_dispatch_counterexample :
    executeSqlQueryCall "SELECT 1" = DbClientCall.query "SELECT 1" ∧
    executeSqlQueryCall "SELECT 1" ≠ DbClientCall.query_with_column_order "SELECT 1" ∧
    PostgresDatabaseUI.execute_sql_query (some probeClient) "SELECT 1" =
      .error (DbError.Sqlx "query was called") ∧
    MySqlDatabaseUI.execute_sql_query (some probeClient) "SELECT 1" =
      .error (DbError.Sqlx "query was called") := by
  refine ⟨rfl, ?_, rfl, rfl⟩
  decide

/-- C1 amended.  When execution is triggered (F5 / Ctrl+E with a non-empty
buffer), the snapshot is trimmed and classified by a case-insensitive
prefix match on SELECT, and every SELECT-classified statement is
dispatched to `DbClient::query` — not `query_with_column_order`, whose
oracle is provably irrelevant to the result — while every other statement
is dispatched to `DbClient::execute`, in both backend wrappers. -/
theorem c1_select_dispatch_amended :
    ∀ (c : DbClientM) (f : String → Except DbError (List String × List (List String)))
      (q : String),
    (PostgresDatabaseUI.execute_sql_query
        (some ⟨c.query, c.execute, f, c.list_databases, c.list_tables, c.describe_table⟩) q =
      PostgresDatabaseUI.execute_sql_query (some c) q) ∧
    (MySqlDatabaseUI.execute_sql_query
        (some ⟨c.query, c.execute, f, c.list_databases, c.list_tables, c.describe_table⟩) q =
      MySqlDatabaseUI.execute_sql_query (some c) q) ∧
    (strStartsWith (strToUpper (strTrim q)) "SELECT" = true →
      executeSqlQueryCall q = DbClientCall.query (strTrim q) ∧
      ∀ e, c.query (strTrim q) = .error e →
        PostgresDatabaseUI.execute_sql_query (some c) q = .error e ∧
        MySqlDatabaseUI.execute_sql_query (some c) q = .error e) ∧
    (strStartsWith (strToUpper (strTrim q)) "SELECT" = false →
      executeSqlQueryCall q = DbClientCall.execute (strTrim q) ∧
      PostgresDatabaseUI.execute_sql_query (some c) q =
        (match c.execute (strTrim q) with
         | .error e => .error e
         | .ok _ => .ok ([], "Non-SELECT query executed successfully.")) ∧
      MySqlDatabaseUI.execute_sql_query (some c) q =
        (match c.execute (strTrim q) with
         | .error e => .error e
         | .ok _ => .ok ([], "Non-SELECT query executed successfully."))) := by
  intro c f q
  cases hs : strStartsWith (strToUpper (strTrim q)) "SELECT" with
  | true =>
      refine ⟨?_, ?_, ?_, ?_⟩
      · simp only [PostgresDatabaseUI.execute_sql_query, hs, if_true]
      · simp only [MySqlDatabaseUI.execute_sql_query, hs, if_true]
      · intro _
        refine ⟨by simp only [executeSqlQueryCall, hs, if_true], ?_⟩
        intro e he
        constructor
        · simp only [PostgresDatabaseUI.execute_sql_query, hs, if_true, he]
        · simp only [MySqlDatabaseUI.execute_sql_query, hs, if_true, he]
      · intro hfalse
        exact absurd hfalse (by decide)
  | false =>
      refine ⟨?_, ?_, ?_, ?_⟩
      · simp only [PostgresDatabaseUI.execute_sql_query, hs, if_false, Bool.false_eq_true]
      · simp only [MySqlDatabaseUI.execute_sql_query, hs, if_false, Bool.false_eq_true]
      · intro htrue
        exact absurd htrue (by decide)
      · intro _
        refine ⟨by simp only [executeSqlQueryCall, hs, if_false, Bool.false_eq_true], ?_, ?_⟩
        · simp only [PostgresDatabaseUI.execute_sql_query, hs, if_false, Bool.false_eq_true]
        · simp only [MySqlDatabaseUI.execute_sql_query, hs, if_false, Bool.false_eq_true]

/-- A stub client used to instantiate the dispatch theorem. -/
def stubClient : DbClientM :=
  ⟨fun _ => .error (DbError.Sqlx "q"), fun _ => .error (DbError.Sqlx "e"),
   fun _ => .ok ([], []), .ok [], .ok [], fun _ => .error (DbError.Sqlx "d")⟩

/-- C1 witness: the lower-case statement `select 1` is classified SELECT
and runs through the `query` oracle; a trimmed `DROP TABLE` statement is
classified non-SELECT. -/
theorem c1_select_dispatch_witness :
    (executeSqlQueryCall "select 1" = DbClientCall.query "select 1" ∧
     PostgresDatabaseUI.execute_sql_query (some stubClient) "select 1" =
       .error (DbError.Sqlx "q") ∧
     MySqlDatabaseUI.execute_sql_query (some stubClient) "select 1" =
       .error (DbError.Sqlx "q")) ∧
    executeSqlQueryCall " DROP TABLE t " = DbClientCall.execute "DROP TABLE t" :=
  ⟨⟨((c1_select_dispatch_amended stubClient (fun _ => .ok ([], [])) "select 1").2.2.1
        (by decide)).1,
    (((c1_select_dispatch_amended stubClient (fun _ => .ok ([], [])) "select 1").2.2.1
        (by decide)).2 (DbError.Sqlx "q") rfl).1,
    (((c1_select_dispatch_amended stubClient (fun _ => .ok ([], [])) "select 1").2.2.1
        (by decide)).2 (DbError.Sqlx "q") rfl).2⟩,
   ((c1_select_dispatch_amended stubClient (fun _ => .ok ([], []))
        " DROP TABLE t ").2.2.2 (by decide)).1⟩

end Dfox

namespace Dfox

theorem indexMapInsert_keys (m : List (String × String)) (h v : String)
    (hfresh : h ∉ m.map Prod.fst) :
    (Handlers.indexMapInsert m h v).map Prod.fst = m.map Prod.fst ++ [h] := by
  unfold Handlers.indexMapInsert
  have hany : m.any (fun p => p.1 == h) = false := by
    rw [List.any_eq_false]
    intro p hp
    simp only [beq_iff_eq]
    intro hpe
    exact hfresh (List.mem_map.mpr ⟨p, hp, hpe⟩)
  have hnot : ¬(m.any (fun p => p.1 == h) = true) := by
    rw [hany]; exact Bool.false_ne_true
  rw [if_neg hnot, List.map_append]
  rfl

theorem insertHeaders_keys (values : List String) :
    ∀ (hs : List String) (m : List (String × String)) (i : Nat),
      hs.Nodup → (∀ x ∈ hs, x ∉ m.map Prod.fst) → i + hs.length ≤ values.length →
      (Handlers.insertHeaders values m i hs).map Prod.fst = m.map Prod.fst ++ hs := by
  intro hs
  induction hs with
  | nil => intro m i _ _ _; simp [Handlers.insertHeaders]
  | cons h rest ih =>
      intro m i hnd hfresh hlen
      have hi : i < values.length := by
        simp only [List.length_cons] at hlen; omega
      obtain ⟨v, hv⟩ : ∃ v, values.get? i = some v := by
        rw [List.get?_eq_get hi]; exact ⟨_, rfl⟩
      simp only [Handlers.insertHeaders, hv]
      have hfh : h ∉ m.map Prod.fst := hfresh h (List.mem_cons_self h rest)
      have hkeys := indexMapInsert_keys m h (Handlers.finalValue v) hfh
      have hnd' := (List.nodup_cons.mp hnd).2
      have hni : h ∉ rest := (List.nodup_cons.mp hnd).1
      have hfresh' : ∀ x ∈ rest,
          x ∉ (Handlers.indexMapInsert m h (Handlers.finalValue v)).map Prod.fst := by
        intro x hx
        rw [hkeys]
        intro hmem
        rcases List.mem_append.mp hmem with hxm | hxh
        · exact hfresh x (List.mem_cons_of_mem _ hx) hxm
        · rw [List.mem_singleton] at hxh
          exact hni (hxh ▸ hx)
      have hlen' : (i + 1) + rest.length ≤ values.length := by
        simp only [List.length_cons] at hlen; omega
      rw [ih _ _ hnd' hfresh' hlen', hkeys, List.append_assoc]
      rfl

/-- C2 counterexample: a data row with three values against a two-column
header has a value count that differs from the header count, yet it is
retained (with the surplus value ignored) — the guard keeps every row
with at least as many values as headers, so "differs implies dropped" is
false. -/
theorem c2_row_shape_counterexample :
    (splitTab "1\t2\t3").length ≠ (Handlers.headersOf "a\tb").length ∧
    (Handlers.processResultRows ["a\tb", "1\t2\t3"] "").1 =
      [[("a", "1"), ("b", "2")]] := by
  constructor
  · decide
  · rfl

/-- C2 amended.  A data row with fewer values than headers is dropped
(with a logged warning), a row with at least as many values — equal or
surplus count — is retained with its first `headers.len()` values, and
when the header names are pairwise distinct every retained row carries
exactly the header's ordered key sequence. -/
theorem c2_row_shape_amended :
    (∀ headers row, (splitTab row).length < headers.length →
       Handlers.ingestRow headers row = none) ∧
    (∀ headers row m, headers.Nodup → Handlers.ingestRow headers row = some m →
       m.map Prod.fst = headers) ∧
    (∀ first rest msg r, (Handlers.headersOf first).Nodup →
       r ∈ (Handlers.processResultRows (first :: rest) msg).1 →
       r.map Prod.fst = Handlers.headersOf first) := by
  have hkeys : ∀ headers row m, headers.Nodup →
      Handlers.ingestRow headers row = some m → m.map Prod.fst = headers := by
    intro headers row m hnd h
    simp only [Handlers.ingestRow] at h
    split at h
    · rename_i hle
      injection h with h'
      subst h'
      have := insertHeaders_keys (splitTab row) headers [] 0 hnd
        (by intro x _ hx; simp at hx) (by simpa using hle)
      simpa using this
    · exact absurd h (by simp)
  refine ⟨?_, hkeys, ?_⟩
  · intro headers row h
    simp only [Handlers.ingestRow]
    rw [if_neg]
    omega
  · intro first rest msg r hnd hr
    simp only [Handlers.processResultRows] at hr
    rcases List.mem_filterMap.mp hr with ⟨row, _, hrow⟩
    exact hkeys _ _ _ hnd hrow

/-- C2 witness: a short row against three headers is dropped; the
retained row of a concrete two-column result carries exactly the header
keys in order. -/
theorem c2_row_shape_witness :
    Handlers.ingestRow ["a", "b", "c"] "1\t2" = none ∧
    ([("a", "1"), ("b", "2")] : List (String × String)).map Prod.fst =
      Handlers.headersOf "a\tb" :=
  ⟨c2_row_shape_amended.1 ["a", "b", "c"] "1\t2" (by decide),
   c2_row_shape_amended.2.2 "a\tb" ["1\t2"] "" [("a", "1"), ("b", "2")]
     (by decide) (by decide)⟩

end Dfox

namespace Dfox

theorem filterMap_replicate_some {α β : Type} (f : α → Option β) (a : α) (b : β)
    (h : f a = some b) : ∀ n, (List.replicate n a).filterMap f = List.replicate n b := by
  intro n
  induction n with
  | zero => rfl
  | succ n ih => simp [List.replicate_succ, List.filterMap_cons, h, ih]

theorem processResultRows_capped_eq (first : String) (rest : List String) (msg : String)
    (h : Handlers.maxRows + 1 < (first :: rest).length) :
    Handlers.processResultRows (first :: rest) msg =
      ((((first :: rest).take (Handlers.maxRows + 1)).drop 1).filterMap
          (fun row => Handlers.ingestRow (Handlers.headersOf first) row),
       "Results limited to 1000 rows for performance") := by
  simp only [Handlers.processResultRows]
  rw [if_pos h, if_pos h]

theorem processResultRows_uncapped_eq (first : String) (rest : List String) (msg : String)
    (h : ¬Handlers.maxRows + 1 < (first :: rest).length) :
    Handlers.processResultRows (first :: rest) msg =
      (rest.filterMap (fun row => Handlers.ingestRow (Handlers.headersOf first) row), msg) := by
  simp only [Handlers.processResultRows]
  rw [if_neg h, if_neg h]
  rfl

/-- The 1500-data-row backend result of the truncation scenario: a
two-column header line followed by 1500 identical well-formed data
lines. -/
def scenario1500 : List String := "a\tb" :: List.replicate 1500 "1\t2"

/-- C3.  Result ingestion retains at most 1000 data rows whatever the
backend returns, and the 1500-row scenario retains exactly 1000 rows with
the truncation recorded in the success message. -/
theorem c3_row_cap :
    (∀ result msg, (Handlers.processResultRows result msg).1.length ≤ Handlers.maxRows) ∧
    (Handlers.processResultRows scenario1500 "").1.length = Handlers.maxRows ∧
    (Handlers.processResultRows scenario1500 "").2 =
      "Results limited to 1000 rows for performance" := by
  have hbound : ∀ result msg,
      (Handlers.processResultRows result msg).1.length ≤ Handlers.maxRows := by
    intro result msg
    cases result with
    | nil => simp [Handlers.processResultRows, Handlers.maxRows]
    | cons first rest =>
        by_cases h : Handlers.maxRows + 1 < (first :: rest).length
        · rw [processResultRows_capped_eq first rest msg h]
          refine le_trans (List.length_filterMap_le _ _) ?_
          simp only [List.length_drop, List.length_take, List.length_cons]
          omega
        · rw [processResultRows_uncapped_eq first rest msg h]
          refine le_trans (List.length_filterMap_le _ _) ?_
          simp only [List.length_cons, Handlers.maxRows] at h ⊢
          omega
  have hcap : Handlers.maxRows + 1 < (("a\tb" : String) :: List.replicate 1500 "1\t2").length := by
    simp only [List.length_cons, List.length_replicate, Handlers.maxRows]
    omega
  have heq := processResultRows_capped_eq "a\tb" (List.replicate 1500 "1\t2") "" hcap
  have htake : (("a\tb" : String) :: List.replicate 1500 "1\t2").take (Handlers.maxRows + 1) =
      "a\tb" :: List.replicate 1000 "1\t2" := by
    rw [List.take_succ_cons, List.take_replicate]
    norm_num [Handlers.maxRows]
  have hing : Handlers.ingestRow (Handlers.headersOf "a\tb") "1\t2" =
      some [("a", "1"), ("b", "2")] := by decide
  have hfm := filterMap_replicate_some
    (fun row => Handlers.ingestRow (Handlers.headersOf "a\tb") row) "1\t2"
    [("a", "1"), ("b", "2")] hing 1000
  refine ⟨hbound, ?_, ?_⟩
  · show (Handlers.processResultRows ("a\tb" :: List.replicate 1500 "1\t2") "").1.length =
      Handlers.maxRows
    rw [heq, htake]
    rw [show (("a\tb" : String) :: List.replicate 1000 "1\t2").drop 1 =
          List.replicate 1000 "1\t2" from rfl]
    rw [hfm, List.length_replicate]
    rfl
  · show (Handlers.processResultRows ("a\tb" :: List.replicate 1500 "1\t2") "").2 =
      "Results limited to 1000 rows for performance"
    rw [heq]

end Dfox

namespace Dfox

/-- C10.  In every backend's `query_with_column_order`, every data row has
exactly as many entries as the header (for Postgres because rows are built
over the statement's column list; for MySQL/SQLite because `query` makes
every row an object and each data row maps over the first row's key
list), an empty backend result yields two empty vectors, and a value
absent under a header renders as the string NULL. -/
theorem c10_parallel_arrays :
    (∀ res : Postgres.PgResult,
       (∀ r ∈ (Postgres.query_with_column_order res).2,
          r.length = (Postgres.query_with_column_order res).1.length) ∧
       (res.rows = [] → Postgres.query_with_column_order res = ([], []))) ∧
    (∀ res : MySql.MySqlResult,
       (∀ r ∈ (MySql.query_with_column_order res).2,
          r.length = (MySql.query_with_column_order res).1.length) ∧
       (res.rows = [] → MySql.query_with_column_order res = ([], []))) ∧
    (∀ res : Sqlite.SqliteResult,
       (∀ r ∈ (Sqlite.query_with_column_order res).2,
          r.length = (Sqlite.query_with_column_order res).1.length) ∧
       (res.rows = [] → Sqlite.query_with_column_order res = ([], []))) ∧
    (∀ (m : List (String × JValue)) (col : String),
       serdeGet m col = none → MySql.renderCellFromMap m col = "NULL") := by
  refine ⟨?_, ?_, ?_, ?_⟩
  · intro res
    constructor
    · intro r hr
      by_cases he : res.rows.isEmpty
      · simp only [Postgres.query_with_column_order, if_pos he] at hr
        simp at hr
      · simp only [Postgres.query_with_column_order, if_neg he] at hr ⊢
        rcases List.mem_map.mp hr with ⟨row, _, rfl⟩
        simp [List.enum_length]
    · intro he
      have : res.rows.isEmpty = true := by simp [he]
      simp [Postgres.query_with_column_order, this]
  · intro res
    constructor
    · intro r hr
      cases hrows : res.rows with
      | nil =>
          simp only [MySql.query_with_column_order, MySql.queryRows, hrows,
            List.map_nil] at hr
          simp at hr
      | cons r0 rs =>
          simp only [MySql.query_with_column_order, MySql.queryRows, hrows,
            List.map_cons] at hr ⊢
          rcases List.mem_cons.mp hr with h0 | hmem
          · subst h0; simp
          · rcases List.mem_map.mp hmem with ⟨row', hrow', rfl⟩
            rcases List.mem_map.mp hrow' with ⟨cells, _, rfl⟩
            simp
    · intro he
      simp [MySql.query_with_column_order, MySql.queryRows, he]
  · intro res
    constructor
    · intro r hr
      cases hrows : res.rows with
      | nil =>
          simp only [Sqlite.query_with_column_order, Sqlite.queryRows, hrows,
            List.map_nil] at hr
          simp at hr
      | cons r0 rs =>
          simp only [Sqlite.query_with_column_order, Sqlite.queryRows, hrows,
            List.map_cons] at hr ⊢
          rcases List.mem_cons.mp hr with h0 | hmem
          · subst h0; simp
          · rcases List.mem_map.mp hmem with ⟨row', hrow', rfl⟩
            rcases List.mem_map.mp hrow' with ⟨cells, _, rfl⟩
            simp
    · intro he
      simp [Sqlite.query_with_column_order, Sqlite.queryRows, he]
  · intro m col h
    simp [MySql.renderCellFromMap, h]

/-- Concrete one-column, one-row fetched results used to instantiate the
parallel-array theorem. -/
def pgResX : Postgres.PgResult :=
  ⟨[⟨"name", "TEXT"⟩],
   [[⟨none, none, none, none, none, none, none, none, some "Alice", none, none⟩]]⟩

def myResX : MySql.MySqlResult :=
  ⟨[⟨"name", "VARCHAR"⟩],
   [[⟨none, none, none, none, none, none, none, none, none, some "Bob"⟩]]⟩

def sqliteResX : Sqlite.SqliteResult :=
  ⟨[⟨"name"⟩], [[⟨some "Carol", none, none⟩]]⟩

/-- C10 witness: the single retained row of each backend's concrete result
has the header's length, and a lookup miss renders NULL. -/
theorem c10_witness :
    ((["Alice"] : List String).length =
       (Postgres.query_with_column_order pgResX).1.length) ∧
    ((["Bob"] : List String).length =
       (MySql.query_with_column_order myResX).1.length) ∧
    ((["Carol"] : List String).length =
       (Sqlite.query_with_column_order sqliteResX).1.length) ∧
    MySql.renderCellFromMap [] "x" = "NULL" :=
  ⟨(c10_parallel_arrays.1 pgResX).1 ["Alice"] (by decide),
   (c10_parallel_arrays.2.1 myResX).1 ["Bob"] (by decide),
   (c10_parallel_arrays.2.2.1 sqliteResX).1 ["Carol"] (by decide),
   c10_parallel_arrays.2.2.2 [] "x" rfl⟩

end Dfox
